import Mathlib

/-!
Shallow embedding of `edc_pdf_reports` (clinicedc/edc-pdf-reports), centred on
`PrintPdfReportView` in `src/edc_pdf_reports/views/print_pdf_report_view.py`:
the session-driven render → merge → encrypt → deliver pipeline for PDF reports.

Third-party collaborators are modelled abstractly but faithfully to their
documented behaviour used by the code:
  * pypdf `PdfWriter`: a sequence of pages; `append` adds all pages of a
    document; `encrypt` + `write` produce output readable only with the
    password that was set.
  * Django session: a key/value store whose `pop` removes the entry and
    raises `KeyError` when the key is absent. The view stores a JSON-encoded
    list of primary keys; since `json.dumps`/`json.loads` round-trip, the
    session value is modelled directly as the decoded list of keys.
  * `slugify(mempass.mkpassword(2))`: a nondeterministically generated
    pass-phrase, passed to the pipeline as an explicit parameter.
Python exceptions are modelled with `Except`.
-/

set_option autoImplicit false

namespace EdcPdfReports

/-- One page of a PDF document, identified abstractly. -/
abbrev Page := Nat

/-- An in-memory PDF buffer (`io.BytesIO` holding one finished report):
the sequence of pages of that report. -/
structure Buffer where
  pages : List Page
deriving DecidableEq, Repr

/-- pypdf `PdfWriter` used as the merger: the pages accumulated so far. -/
structure PdfWriter where
  pages : List Page
deriving DecidableEq, Repr

/-- `PdfWriter()`: a freshly constructed writer holds no pages. -/
def PdfWriter.emptyWriter : PdfWriter := ⟨[]⟩

/-- `merger.append(fileobj=buffer)`: appends every page of the buffer, in
order, after the pages already in the writer. -/
def PdfWriter.appendBuffer (w : PdfWriter) (b : Buffer) : PdfWriter :=
  ⟨w.pages ++ b.pages⟩

/-- The bytes written by `merger.write(...)` after `merger.encrypt(password,
algorithm="AES-256")`: the merged pages protected by the password. -/
structure EncryptedPdf where
  pages : List Page
  password : String
deriving DecidableEq, Repr

/-- `merger.encrypt(password, ...)` followed by `merger.write(new_buffer)`. -/
def PdfWriter.encryptWrite (w : PdfWriter) (password : String) : EncryptedPdf :=
  ⟨w.pages, password⟩

/-- Opening the encrypted output with pass-phrase `p`: succeeds, yielding the
pages, exactly when `p` is the password that encrypted it. -/
def EncryptedPdf.decrypt (e : EncryptedPdf) (p : String) : Option (List Page) :=
  if p = e.password then some e.pages else none

/-- A persisted record for which a PDF report can be generated. -/
structure PdfRecord where
  pk : String
  /-- `model_obj.get_pdf_report(self.request).report_filename`: the
  record-specific report filename. -/
  report_filename : String
  /-- The pages the record's report renders to (the result of building the
  report story through the document template in `render_to_pdf`). -/
  report_pages : List Page
deriving DecidableEq, Repr

/-- The model class addressed by `app_label`/`model_name`: its persistent
store of records (`objects`) and its `pdf_report_cls` filename accessor. -/
structure ModelCls where
  records : List PdfRecord
  /-- `pdf_report_cls.get_generic_report_filename()`. -/
  generic_report_filename : String
deriving Repr

/-- `objects.get(pk=pk)`: `none` models the `DoesNotExist` exception. -/
def ModelCls.getByPk (m : ModelCls) (pk : String) : Option PdfRecord :=
  m.records.find? (fun r => r.pk == pk)

/-- The Django session: an association list from keys to JSON-decoded lists
of primary keys (keys are unique in a real session dictionary). -/
structure Session where
  entries : List (String × List String)
deriving DecidableEq, Repr

/-- `request.session.pop(key)`: returns the stored value and the session
with the entry removed; `none` models the `KeyError` raised when the key is
absent (in which case the session is left unchanged). -/
def Session.pop (s : Session) (key : String) : Option (List String × Session) :=
  match s.entries.find? (fun e => e.1 == key) with
  | none => none
  | some e => some (e.2, ⟨s.entries.filter (fun e2 => e2.1 != key)⟩)

/-- `PrintPdfReportView.session_key`. -/
def session_key : String := "model_pks"

/-- The parts of the HTTP request the pipeline reads: the session, and the
posted `phrase` form field (`request.POST.get("phrase")`; `none` when the
field is missing, e.g. on a plain GET). -/
structure Request where
  session : Session
  phrase : Option String
deriving DecidableEq, Repr

/-- Exceptions that escape `render_to_response` to the caller. -/
inductive PipelineError where
  /-- `Model.DoesNotExist` raised by `objects.get(pk=pk)`. -/
  | doesNotExist (pk : String)
  /-- `ValueError("Cannot create file without a filename. ...")`. -/
  | missingFilename
deriving DecidableEq, Repr

/-- The HTTP response returned by `render_to_response`. -/
inductive Response where
  /-- `FileResponse(new_buffer, as_attachment=True, filename=...)`. -/
  | fileResponse (filename : String) (attachment : EncryptedPdf)
  /-- `HttpResponseRedirect(url)`. -/
  | redirect (url : String)
deriving DecidableEq, Repr

/-- User-visible flash messages emitted during the request. -/
inductive Message where
  /-- `messages.error(...)`: "PDF report was not created because of an
  error. Please try again." -/
  | error
  /-- `messages.success(...)` via `message_user`: reports the filename and
  the pass-phrase. -/
  | success (report_filename : String) (password : String)
deriving DecidableEq, Repr

/-- `PrintPdfReportView.render_to_pdf`: resolve the primary key against the
store (`DoesNotExist` propagates) and render that record's report to a
fresh buffer. -/
def render_to_pdf (m : ModelCls) (pk : String) : Except PipelineError Buffer :=
  match m.getByPk pk with
  | none => .error (.doesNotExist pk)
  | some r => .ok ⟨r.report_pages⟩

/-- The `for pk in model_pks:` loop body of `render_to_response`: render each
primary key in order; the first exception aborts the loop and propagates. -/
def renderAll (m : ModelCls) (pks : List String) : Except PipelineError (List Buffer) :=
  match pks with
  | [] => .ok []
  | pk :: rest =>
    match render_to_pdf m pk with
    | .error e => .error e
    | .ok b =>
      match renderAll m rest with
      | .error e => .error e
      | .ok bs => .ok (b :: bs)

/-- `PrintPdfReportView.get_report_filename`: for exactly one primary key
(`len(model_pks) == 1`, i.e. a singleton list) the record-specific filename,
otherwise the generic one; an empty (falsy) filename raises `ValueError`. -/
def get_report_filename (m : ModelCls) (model_pks : List String) :
    Except PipelineError String :=
  let step : Except PipelineError String :=
    match model_pks with
    | [pk] =>
      match m.getByPk pk with
      | none => .error (.doesNotExist pk)
      | some r => .ok r.report_filename
    | _ => .ok m.generic_report_filename
  match step with
  | .error e => .error e
  | .ok report_filename =>
    if report_filename = "" then .error .missingFilename else .ok report_filename

/-- `kwargs.get("phrase") or slugify(mempass.mkpassword(2))`: a missing or
falsy (empty) posted phrase falls back to the generated pass-phrase. -/
def effectivePassword (phrase : Option String) (generated : String) : String :=
  match phrase with
  | none => generated
  | some p => if p = "" then generated else p

/-- Everything a request produces besides exceptions: the HTTP response, the
flash messages emitted, and the session as left behind. -/
structure RequestOutcome where
  response : Response
  messages : List Message
  session : Session
deriving DecidableEq, Repr

/-- `PrintPdfReportView.render_to_response`. `generated` is the pass-phrase
`slugify(mempass.mkpassword(2))` would produce for this request. On a
missing session entry the `KeyError` is caught and the view emits an error
message and redirects; exceptions from rendering or the filename check
propagate (the `else:` block of a `try` statement is outside its handler). -/
def render_to_response (m : ModelCls) (generated : String) (req : Request) :
    Except PipelineError RequestOutcome :=
  match req.session.pop session_key with
  | none => .ok ⟨.redirect "/", [.error], req.session⟩
  | some (model_pks, session1) =>
    match renderAll m model_pks with
    | .error e => .error e
    | .ok buffers =>
      let merger := buffers.foldl PdfWriter.appendBuffer PdfWriter.emptyWriter
      let password := effectivePassword req.phrase generated
      let encrypted := merger.encryptWrite password
      match get_report_filename m model_pks with
      | .error e => .error e
      | .ok report_filename =>
        .ok ⟨.fileResponse report_filename encrypted,
             [.success report_filename password], session1⟩

end EdcPdfReports

namespace EdcPdfReports

/-! Concrete fixtures used by the witness theorems: a store with two
records and the requests an intermediate page would produce. -/

/-- A sample record whose report renders to two pages. -/
def record1 : PdfRecord := ⟨"pk1", "report-pk1.pdf", [0, 1]⟩

/-- A sample record whose report renders to one page. -/
def record2 : PdfRecord := ⟨"pk2", "report-pk2.pdf", [2]⟩

/-- A sample model class holding the two records. -/
def exModel : ModelCls := ⟨[record1, record2], "generic.pdf"⟩

/-- A session holding one pending primary key under the session key. -/
def exSession1 : Session := ⟨[("model_pks", ["pk1"])]⟩

/-- A single-record download request with no posted phrase. -/
def exReq1 : Request := ⟨exSession1, none⟩

/-- A two-record download request with a posted phrase. -/
def exReq2 : Request := ⟨⟨[("model_pks", ["pk1", "pk2"])]⟩, some "secret"⟩

/-! General lemmas about the embedded operations, shared by the claim
theorems below. -/

/-- Popping a key removes it: a second pop of the same key raises. -/
theorem pop_after_pop (s : Session) (key : String) (v : List String) (s' : Session)
    (h : s.pop key = some (v, s')) : s'.pop key = none := by
  unfold Session.pop at h
  rcases hf : s.entries.find? (fun e => e.1 == key) with _ | e
  · simp [hf] at h
  · rw [hf] at h
    simp only [Option.some.injEq, Prod.mk.injEq] at h
    obtain ⟨hv, hs⟩ := h
    have hnone : (s.entries.filter (fun e2 => e2.1 != key)).find?
        (fun e => e.1 == key) = none := by
      rw [List.find?_eq_none]
      intro x hx
      have hx2 := (List.mem_filter.mp hx).2
      simp only [bne_iff_ne, ne_eq, decide_eq_true_eq] at hx2
      simp [hx2]
    rw [← hs]
    unfold Session.pop
    simp [hnone]

/-- Folding `appendBuffer` concatenates the pages of the buffers, in order,
after the pages already in the writer. -/
theorem foldl_appendBuffer_pages (bs : List Buffer) (w : PdfWriter) :
    (bs.foldl PdfWriter.appendBuffer w).pages = w.pages ++ (bs.map Buffer.pages).flatten := by
  induction bs generalizing w with
  | nil => simp
  | cons b rest ih => simp [PdfWriter.appendBuffer, ih]

/-- When the render loop succeeds, each primary key was rendered to exactly
one buffer, pointwise in the order of the input list. -/
theorem renderAll_ok_forall2 (m : ModelCls) (pks : List String) (bs : List Buffer)
    (h : renderAll m pks = .ok bs) :
    List.Forall₂ (fun pk b => render_to_pdf m pk = Except.ok b) pks bs := by
  induction pks generalizing bs with
  | nil =>
    unfold renderAll at h
    simp only [Except.ok.injEq] at h
    subst h
    exact .nil
  | cons pk rest ih =>
    unfold renderAll at h
    rcases hr : render_to_pdf m pk with e | b
    · rw [hr] at h; simp at h
    · rw [hr] at h
      rcases hra : renderAll m rest with e | bs2
      · rw [hra] at h; simp at h
      · rw [hra] at h
        simp only [Except.ok.injEq] at h
        subst h
        exact .cons hr (ih bs2 hra)

/-- A primary key that does not resolve makes the render loop fail. -/
theorem renderAll_error_of_missing (m : ModelCls) (pks : List String) (pk : String)
    (hmem : pk ∈ pks) (hmiss : m.getByPk pk = none) :
    ∃ e, renderAll m pks = .error e := by
  induction pks with
  | nil => simp at hmem
  | cons hd rest ih =>
    rcases List.mem_cons.mp hmem with heq | hmemr
    · subst heq
      refine ⟨.doesNotExist pk, ?_⟩
      unfold renderAll render_to_pdf
      rw [hmiss]
    · rcases hr : render_to_pdf m hd with e | b
      · exact ⟨e, by unfold renderAll; rw [hr]⟩
      · obtain ⟨e, he⟩ := ih hmemr
        exact ⟨e, by unfold renderAll; rw [hr, he]⟩

/-- The only exception the render loop can raise is a not-found lookup
failure for a key that does not resolve. -/
theorem renderAll_error_doesNotExist (m : ModelCls) (pks : List String)
    (e : PipelineError) (h : renderAll m pks = .error e) :
    ∃ pk2, e = .doesNotExist pk2 ∧ m.getByPk pk2 = none := by
  induction pks with
  | nil => unfold renderAll at h; simp at h
  | cons hd rest ih =>
    unfold renderAll at h
    rcases hg : m.getByPk hd with _ | r
    · refine ⟨hd, ?_, hg⟩
      unfold render_to_pdf at h
      rw [hg] at h
      simp only [Except.error.injEq] at h
      exact h.symm
    · have hr : render_to_pdf m hd = .ok ⟨r.report_pages⟩ := by
        unfold render_to_pdf; rw [hg]
      rw [hr] at h
      rcases hra : renderAll m rest with e2 | bs2
      · rw [hra] at h
        simp only [Except.error.injEq] at h
        subst h
        exact ih hra
      · rw [hra] at h
        simp at h

/-- Inversion of a delivered download: a `FileResponse` outcome means the
session entry was popped, every key rendered, the filename check passed, and
the attachment is the merged pages encrypted under the effective password,
which is also echoed in the success message. -/
theorem render_success_inversion (m : ModelCls) (generated : String) (req : Request)
    (fn : String) (enc : EncryptedPdf) (msgs : List Message) (s2 : Session)
    (h : render_to_response m generated req = .ok ⟨.fileResponse fn enc, msgs, s2⟩) :
    ∃ model_pks session1 buffers,
      req.session.pop session_key = some (model_pks, session1) ∧
      renderAll m model_pks = .ok buffers ∧
      get_report_filename m model_pks = .ok fn ∧
      enc = ⟨(buffers.map Buffer.pages).flatten, effectivePassword req.phrase generated⟩ ∧
      msgs = [.success fn (effectivePassword req.phrase generated)] ∧
      s2 = session1 := by
  unfold render_to_response at h
  rcases hpop : req.session.pop session_key with _ | ⟨model_pks, session1⟩
  · rw [hpop] at h; simp at h
  · rw [hpop] at h
    dsimp only at h
    rcases hra : renderAll m model_pks with e | buffers
    · rw [hra] at h; simp at h
    · rw [hra] at h
      dsimp only at h
      rcases hfn : get_report_filename m model_pks with e | fn2
      · rw [hfn] at h; simp at h
      · rw [hfn] at h
        dsimp only at h
        simp only [Except.ok.injEq, RequestOutcome.mk.injEq,
          Response.fileResponse.injEq] at h
        obtain ⟨⟨hfn2, henc⟩, hmsgs, hs⟩ := h
        subst hfn2
        refine ⟨model_pks, session1, buffers, rfl, hra, hfn, ?_, ?_, hs.symm⟩
        · rw [← henc]
          unfold PdfWriter.encryptWrite
          rw [foldl_appendBuffer_pages]
          rfl
        · rw [← hmsgs]

/-- C1: when the session holds no pending-identifiers entry under the
session key, `render_to_response` returns (it does not raise): it emits the
error flash message and answers with an HTTP redirect, leaving the session
as it was. -/
theorem missing_session_redirects (m : ModelCls) (generated : String) (req : Request)
    (h : req.session.pop session_key = none) :
    render_to_response m generated req =
      .ok ⟨.redirect "/", [Message.error], req.session⟩ := by
  unfold render_to_response
  rw [h]

/-- Witness for C1: a request over an empty session. -/
theorem missing_session_redirects_witness :
    render_to_response exModel "gen" ⟨⟨[]⟩, none⟩ =
      .ok ⟨.redirect "/", [Message.error], ⟨[]⟩⟩ :=
  missing_session_redirects exModel "gen" ⟨⟨[]⟩, none⟩ rfl

/-- C2: the filename attached to a delivered response is the single
record's specific report filename when exactly one identifier was popped
from the session, and the model's generic report filename when more than
one was. -/
theorem report_filename_policy (m : ModelCls) (generated : String) (req : Request)
    (model_pks : List String) (session1 : Session)
    (hpop : req.session.pop session_key = some (model_pks, session1))
    (fn : String) (enc : EncryptedPdf) (msgs : List Message) (s2 : Session)
    (hok : render_to_response m generated req = .ok ⟨.fileResponse fn enc, msgs, s2⟩) :
    (∀ pk, model_pks = [pk] → ∃ r, m.getByPk pk = some r ∧ fn = r.report_filename) ∧
    (1 < model_pks.length → fn = m.generic_report_filename) := by
  obtain ⟨pks2, s1b, bs, hpop2, hra, hfn, henc, hmsgs, hs⟩ :=
    render_success_inversion m generated req fn enc msgs s2 hok
  rw [hpop] at hpop2
  simp only [Option.some.injEq, Prod.mk.injEq] at hpop2
  obtain ⟨hpks, hsess⟩ := hpop2
  subst hpks
  constructor
  · rintro pk rfl
    unfold get_report_filename at hfn
    dsimp only at hfn
    rcases hg : m.getByPk pk with _ | r
    · rw [hg] at hfn; simp at hfn
    · rw [hg] at hfn
      dsimp only at hfn
      split at hfn
      · simp at hfn
      · simp only [Except.ok.injEq] at hfn
        exact ⟨r, rfl, hfn.symm⟩
  · intro hlen
    rcases model_pks with _ | ⟨a, _ | ⟨b, rest⟩⟩
    · simp at hlen
    · simp at hlen
    · unfold get_report_filename at hfn
      dsimp only at hfn
      split at hfn
      · simp at hfn
      · simp only [Except.ok.injEq] at hfn
        exact hfn.symm

/-- Witness for C2: one pending identifier yields that record's filename. -/
theorem report_filename_policy_witness :
    (∀ pk, ["pk1"] = [pk] →
      ∃ r, exModel.getByPk pk = some r ∧ "report-pk1.pdf" = r.report_filename) ∧
    (1 < (["pk1"] : List String).length →
      "report-pk1.pdf" = exModel.generic_report_filename) :=
  report_filename_policy exModel "gen" exReq1 ["pk1"] ⟨[]⟩ rfl
    "report-pk1.pdf" ⟨[0, 1], "gen"⟩ [.success "report-pk1.pdf" "gen"] ⟨[]⟩ rfl

/-- C3: when no pass-phrase is posted, the generated pass-phrase is the one
that encrypts the delivered document, and the success notification carries
that same pass-phrase. -/
theorem generated_phrase_encrypts_and_notifies (m : ModelCls) (generated : String)
    (req : Request) (fn : String) (enc : EncryptedPdf) (msgs : List Message) (s2 : Session)
    (hphrase : req.phrase = none)
    (hok : render_to_response m generated req = .ok ⟨.fileResponse fn enc, msgs, s2⟩) :
    enc.password = generated ∧ msgs = [Message.success fn generated] := by
  obtain ⟨pks, s1, bs, hpop, hra, hfn, henc, hmsgs, hs⟩ :=
    render_success_inversion m generated req fn enc msgs s2 hok
  subst henc hmsgs
  simp [effectivePassword, hphrase]

/-- Witness for C3: a phrase-less request is encrypted under the generated
pass-phrase and the message echoes it. -/
theorem generated_phrase_encrypts_and_notifies_witness :
    (⟨[0, 1], "gen"⟩ : EncryptedPdf).password = "gen" ∧
    [Message.success "report-pk1.pdf" "gen"] =
      [Message.success "report-pk1.pdf" "gen"] :=
  generated_phrase_encrypts_and_notifies exModel "gen" exReq1 "report-pk1.pdf"
    ⟨[0, 1], "gen"⟩ [.success "report-pk1.pdf" "gen"] ⟨[]⟩ rfl rfl

/-- C4: a posted non-empty pass-phrase is used verbatim as the encryption
password, and the delivered document decrypts under exactly that phrase and
no other. -/
theorem supplied_phrase_exact (m : ModelCls) (generated : String) (req : Request)
    (p : String) (fn : String) (enc : EncryptedPdf) (msgs : List Message) (s2 : Session)
    (hphrase : req.phrase = some p) (hp : p ≠ "")
    (hok : render_to_response m generated req = .ok ⟨.fileResponse fn enc, msgs, s2⟩) :
    enc.password = p ∧ ∀ q, (enc.decrypt q).isSome ↔ q = p := by
  obtain ⟨pks, s1, bs, hpop, hra, hfn, henc, hmsgs, hs⟩ :=
    render_success_inversion m generated req fn enc msgs s2 hok
  subst henc
  have hpw : effectivePassword req.phrase generated = p := by
    simp [effectivePassword, hphrase, hp]
  refine ⟨hpw, ?_⟩
  intro q
  unfold EncryptedPdf.decrypt
  dsimp only
  rw [hpw]
  split <;> simp_all

/-- Witness for C4: the posted phrase "secret" protects the delivery. -/
theorem supplied_phrase_exact_witness :
    (⟨[0, 1, 2], "secret"⟩ : EncryptedPdf).password = "secret" ∧
    ∀ q, ((⟨[0, 1, 2], "secret"⟩ : EncryptedPdf).decrypt q).isSome ↔ q = "secret" :=
  supplied_phrase_exact exModel "gen" exReq2 "secret" "generic.pdf"
    ⟨[0, 1, 2], "secret"⟩ [.success "generic.pdf" "secret"] ⟨[]⟩ rfl (by decide) rfl

/-- C5: merging a list of rendered buffers by repeated `append` into a fresh
writer yields a document whose page count is the sum of the page counts of
the constituents. -/
theorem merged_page_count (buffers : List Buffer) :
    (buffers.foldl PdfWriter.appendBuffer PdfWriter.emptyWriter).pages.length =
      (buffers.map (fun b => b.pages.length)).sum := by
  rw [foldl_appendBuffer_pages]
  simp only [PdfWriter.emptyWriter, List.nil_append, List.length_flatten, List.map_map]
  rfl

/-- C6: the session entry is consumed exactly once: after a delivered
download, the session left behind has no pending identifiers, so a second
request over it (with any phrase and generated pass-phrase) redirects with
the error message instead of delivering. -/
theorem session_entry_single_use (m : ModelCls) (g1 g2 : String) (req : Request)
    (fn : String) (enc : EncryptedPdf) (msgs : List Message) (s2 : Session)
    (h1 : render_to_response m g1 req = .ok ⟨.fileResponse fn enc, msgs, s2⟩)
    (phrase2 : Option String) :
    s2.pop session_key = none ∧
    render_to_response m g2 ⟨s2, phrase2⟩ = .ok ⟨.redirect "/", [Message.error], s2⟩ := by
  obtain ⟨pks, s1, bs, hpop, hra, hfn, henc, hmsgs, hs⟩ :=
    render_success_inversion m g1 req fn enc msgs s2 h1
  subst hs
  have hnone := pop_after_pop req.session session_key pks s2 hpop
  refine ⟨hnone, ?_⟩
  unfold render_to_response
  dsimp only
  rw [hnone]

/-- Witness for C6: after the single-record download, a repeat request
redirects. -/
theorem session_entry_single_use_witness :
    Session.pop ⟨[]⟩ session_key = none ∧
    render_to_response exModel "g2" ⟨⟨[]⟩, none⟩ =
      .ok ⟨.redirect "/", [Message.error], ⟨[]⟩⟩ :=
  session_entry_single_use exModel "gen" "g2" exReq1 "report-pk1.pdf"
    ⟨[0, 1], "gen"⟩ [.success "report-pk1.pdf" "gen"] ⟨[]⟩ rfl none

/-- C7: an identifier that resolves to no record makes `render_to_pdf` fail
with the not-found lookup failure, and when such an identifier is among the
pending ones the whole request raises a not-found failure to the caller
(no redirect, no delivery). -/
theorem missing_record_error_propagates (m : ModelCls) (generated : String)
    (req : Request) (model_pks : List String) (session1 : Session) (pk : String)
    (hpop : req.session.pop session_key = some (model_pks, session1))
    (hmem : pk ∈ model_pks) (hmiss : m.getByPk pk = none) :
    render_to_pdf m pk = .error (.doesNotExist pk) ∧
    ∃ pk2, m.getByPk pk2 = none ∧
      render_to_response m generated req = .error (.doesNotExist pk2) := by
  constructor
  · unfold render_to_pdf
    rw [hmiss]
  · obtain ⟨e, he⟩ := renderAll_error_of_missing m model_pks pk hmem hmiss
    obtain ⟨pk2, he2, hg2⟩ := renderAll_error_doesNotExist m model_pks e he
    subst he2
    refine ⟨pk2, hg2, ?_⟩
    unfold render_to_response
    rw [hpop]
    dsimp only
    rw [he]

/-- Witness for C7: the unknown identifier "zz" aborts the request with the
not-found failure. -/
theorem missing_record_error_propagates_witness :
    render_to_pdf exModel "zz" = .error (.doesNotExist "zz") ∧
    ∃ pk2, exModel.getByPk pk2 = none ∧
      render_to_response exModel "gen" ⟨⟨[("model_pks", ["zz"])]⟩, none⟩ =
        .error (.doesNotExist pk2) :=
  missing_record_error_propagates exModel "gen" ⟨⟨[("model_pks", ["zz"])]⟩, none⟩
    ["zz"] ⟨[]⟩ "zz" rfl (by simp) rfl

/-- C8: a successful render loop renders the identifiers sequentially in
list order, one buffer per identifier (pointwise `Forall₂`), and the merge
appends the buffers' pages in that same order. -/
theorem sequential_render_order (m : ModelCls) (model_pks : List String)
    (buffers : List Buffer) (h : renderAll m model_pks = .ok buffers) :
    List.Forall₂ (fun pk b => render_to_pdf m pk = Except.ok b) model_pks buffers ∧
    (buffers.foldl PdfWriter.appendBuffer PdfWriter.emptyWriter).pages =
      (buffers.map Buffer.pages).flatten := by
  refine ⟨renderAll_ok_forall2 m model_pks buffers h, ?_⟩
  rw [foldl_appendBuffer_pages]
  simp [PdfWriter.emptyWriter]

/-- Witness for C8: two identifiers render to their two buffers in order
and merge to the concatenated pages. -/
theorem sequential_render_order_witness :
    List.Forall₂ (fun pk b => render_to_pdf exModel pk = Except.ok b)
      ["pk1", "pk2"] [⟨[0, 1]⟩, ⟨[2]⟩] ∧
    (([⟨[0, 1]⟩, ⟨[2]⟩] : List Buffer).foldl PdfWriter.appendBuffer
        PdfWriter.emptyWriter).pages =
      (([⟨[0, 1]⟩, ⟨[2]⟩] : List Buffer).map Buffer.pages).flatten :=
  sequential_render_order exModel ["pk1", "pk2"] [⟨[0, 1]⟩, ⟨[2]⟩] rfl

/-- C9: a posted phrase equal to the empty string is treated like a missing
one: the delivered document is encrypted under the generated pass-phrase. -/
theorem empty_phrase_uses_generated (m : ModelCls) (generated : String) (req : Request)
    (fn : String) (enc : EncryptedPdf) (msgs : List Message) (s2 : Session)
    (hphrase : req.phrase = none ∨ req.phrase = some "")
    (hok : render_to_response m generated req = .ok ⟨.fileResponse fn enc, msgs, s2⟩) :
    enc.password = generated := by
  obtain ⟨pks, s1, bs, hpop, hra, hfn, henc, hmsgs, hs⟩ :=
    render_success_inversion m generated req fn enc msgs s2 hok
  subst henc
  rcases hphrase with h | h <;> simp [effectivePassword, h]

/-- Witness for C9: posting an empty phrase still encrypts under the
generated pass-phrase. -/
theorem empty_phrase_uses_generated_witness :
    (⟨[0, 1], "gen"⟩ : EncryptedPdf).password = "gen" :=
  empty_phrase_uses_generated exModel "gen" ⟨exSession1, some ""⟩ "report-pk1.pdf"
    ⟨[0, 1], "gen"⟩ [.success "report-pk1.pdf" "gen"] ⟨[]⟩ (Or.inr rfl) rfl

/-- C10: a present session entry holding an empty identifier list still
delivers: nothing is rendered, the encrypted attachment has zero pages, and
the generic report filename is used (provided it is non-empty, which the
code otherwise turns into the `ValueError`). -/
theorem empty_pk_list_delivers (m : ModelCls) (generated : String) (req : Request)
    (session1 : Session)
    (hpop : req.session.pop session_key = some ([], session1))
    (hfn : m.generic_report_filename ≠ "") :
    render_to_response m generated req =
      .ok ⟨.fileResponse m.generic_report_filename
             ⟨[], effectivePassword req.phrase generated⟩,
           [.success m.generic_report_filename (effectivePassword req.phrase generated)],
           session1⟩ := by
  simp [render_to_response, hpop, renderAll, get_report_filename, hfn,
        PdfWriter.encryptWrite, PdfWriter.emptyWriter]

/-- Witness for C10: an empty pending list delivers a zero-page encrypted
document under the generic filename. -/
theorem empty_pk_list_delivers_witness :
    render_to_response exModel "gen" ⟨⟨[("model_pks", [])]⟩, none⟩ =
      .ok ⟨.fileResponse exModel.generic_report_filename
             ⟨[], effectivePassword none "gen"⟩,
           [.success exModel.generic_report_filename (effectivePassword none "gen")],
           ⟨[]⟩⟩ :=
  empty_pk_list_delivers exModel "gen" ⟨⟨[("model_pks", [])]⟩, none⟩ ⟨[]⟩ rfl
    (by decide)

end EdcPdfReports
